import Mathlib

/-!
# Verification of the notification delivery worker

Shallow embedding of `internal/notification` worker code (worker loop,
dequeue transaction, delivery channels, payload cache and default webhook
payload template) and proofs about it.

Go collaborators that live outside the worker (the database, the email
sender, the HTTP client, the package/repository managers, the email body
templates) are supplied as oracle fields of an `Env` record, exactly as a
mock would supply them in a test; the worker's own control flow is
translated line by line from the source.
-/

namespace HubNotif

/-! ## Data model -/

/-- Event kinds (`hub.NewRelease`, `hub.RepositoryScanningErrors`,
`hub.RepositoryTrackingErrors`, `hub.RepositoryOwnershipClaim`). -/
inductive EventKind where
  | newRelease
  | repositoryScanningErrors
  | repositoryTrackingErrors
  | repositoryOwnershipClaim
deriving DecidableEq, Repr

/-- `hub.Event`: immutable fact describing what happened. -/
structure Event where
  eventID : String
  eventKind : EventKind
  packageID : String
  packageVersion : String
  repositoryID : String
deriving DecidableEq, Repr

/-- `hub.Webhook`: delivery target configuration. An empty `template`
models Go's `Template == ""` (no custom payload template); an empty
`contentType` models no content type override. -/
structure Webhook where
  url : String
  secret : String
  template : String
  contentType : String
deriving DecidableEq, Repr

/-- The slice of `hub.User` the worker reads (`n.User.Email`). -/
structure UserTarget where
  email : String
deriving DecidableEq, Repr

/-- Repository kinds (TS enum `RepositoryKind`). -/
inductive RepositoryKind where
  | helm
  | falco
  | opa
  | olm
  | tbAction
  | krew
  | helmPlugin
  | tektonTask
  | kedaScaler
deriving DecidableEq, Repr

/-- The slice of `hub.Repository` the worker reads. -/
structure Repository where
  kind : RepositoryKind
  name : String
  organizationName : String
  userAlias : String
  lastScanningErrors : String
  lastTrackingErrors : String
deriving DecidableEq, Repr

/-- The slice of `hub.Package` the worker reads
(`preparePkgNotificationTemplateData`). -/
structure Package where
  name : String
  version : String
  logoImageID : String
  changes : List String
  containsSecurityUpdates : Bool
  prerelease : Bool
  repository : Repository
deriving DecidableEq, Repr

/-- `hub.Notification`: references a target user or a target webhook and
wraps an event. In Go both `User` and `Webhook` are nullable pointers. -/
structure Notification where
  notificationID : String
  event : Event
  user : Option UserTarget
  webhook : Option Webhook
deriving DecidableEq, Repr

/-- `email.Data` (the fields the worker fills: `To`, `Subject`, `Body`). -/
structure EmailData where
  sendTo : String
  subject : String
  body : String
deriving DecidableEq, Repr

/-! ## Go error values

A Go `error` as the worker observes it: `errors.Is(err, ErrRetryable)`
holds exactly when the error was produced by wrapping with the
`ErrRetryable` sentinel via `fmt.Errorf("%w: ...", ErrRetryable, ...)`,
and `errText` is the string `Error()` renders. -/

/-- A Go error value, as far as the worker can distinguish them. -/
inductive GoErr where
  /-- `pgx.ErrNoRows` (no pending notification). -/
  | noRows
  /-- `email.ErrSenderNotAvailable`. Modelled from the spec: the email
  sender collaborator's distinguished "sender not configured" condition
  (the `email` package is not part of the worker source). -/
  | senderNotAvailable
  /-- An error built by `fmt.Errorf("%w: <suffix>", ErrRetryable, ...)`;
  its rendered text is `"retryable error: " ++ suffix` since
  `ErrRetryable = errors.New("retryable error")`. -/
  | retryableWrap (suffix : String)
  /-- Any other error, rendered as `msg`. -/
  | plain (msg : String)
deriving DecidableEq, Repr

/-- `errors.Is(err, ErrRetryable)`: only true for errors wrapped with the
retryable sentinel (`%w` wraps only the sentinel into the chain; the
inner error is formatted with `%v` and is not in the chain). -/
def GoErr.isRetryableErr : GoErr → Bool
  | .retryableWrap _ => true
  | _ => false

/-- The string `err.Error()` renders. -/
def GoErr.errText : GoErr → String
  | .noRows => "no rows in result set"
  | .senderNotAvailable => "email sender not available"
  | .retryableWrap suffix => "retryable error: " ++ suffix
  | .plain msg => msg

/-! ## Payload cache

`github.com/patrickmn/go-cache` usage: `Get` / `SetDefault` on string
keys. Entries are only read back within their TTL; expiry is not
observable by any claim settled here, so the cache is modelled as an
association list (most recent write first). -/

/-- The three kinds of values the worker stores in the cache. -/
inductive CacheVal where
  | emailVal (d : EmailData)
  | pkgVal (p : Package)
  | repoVal (r : Repository)
deriving DecidableEq, Repr

/-- The worker's payload cache. -/
abbrev Cache := List (String × CacheVal)

/-- `cache.Get key`. -/
def cacheGet (c : Cache) (k : String) : Option CacheVal :=
  (c.find? (fun p => p.1 == k)).map (fun p => p.2)

/-- `cache.SetDefault key v`. -/
def cacheSet (c : Cache) (k : String) (v : CacheVal) : Cache :=
  (k, v) :: c

/-- Cache key used by `deliverEmailNotification`:
`"emailData.%" + n.Event.EventID`. -/
def cacheKeyEmail (eventID : String) : String :=
  "emailData.%" ++ eventID

/-- Cache key used by `preparePkgNotificationTemplateData`:
`"package.%" + e.EventID`. -/
def cacheKeyPackage (eventID : String) : String :=
  "package.%" ++ eventID

/-- Cache key used by `prepareRepoNotificationTemplateData`:
`"repository.%" + e.EventID`. -/
def cacheKeyRepository (eventID : String) : String :=
  "repository.%" ++ eventID

/-! ## Template data -/

/-- `hub.PackageNotificationTemplateData` with its two nested
`map[string]interface{}` payloads flattened into named fields (the same
keys the maps carry). -/
structure PkgNotificationTemplateData where
  baseURL : String
  eventID : String
  eventKindStr : String
  name : String
  version : String
  logoImageID : String
  url : String
  changes : List String
  containsSecurityUpdates : Bool
  prerelease : Bool
  repoKind : String
  repoName : String
  publisher : String
deriving DecidableEq, Repr

/-- `hub.RepositoryNotificationTemplateData`, flattened the same way. -/
structure RepoNotificationTemplateData where
  baseURL : String
  eventID : String
  eventKindStr : String
  repoKind : String
  repoName : String
  userAlias : String
  organizationName : String
  lastScanningErrors : List String
  lastTrackingErrors : List String
deriving DecidableEq, Repr

/-- Data handed to an email body template (package data for new-release,
repository data for the repository event kinds). -/
inductive EmailTemplateData where
  | pkgData (d : PkgNotificationTemplateData)
  | repoData (d : RepoNotificationTemplateData)
deriving DecidableEq, Repr

/-- Modelled from the spec: `hub.GetKindName` (not under the worker
source) maps a repository kind to its lowercase display name. Only
`helm` is exercised by concrete inputs here. -/
def getKindName : RepositoryKind → String
  | .helm => "helm"
  | .falco => "falco"
  | .opa => "opa"
  | .olm => "olm"
  | .tbAction => "tbaction"
  | .krew => "krew"
  | .helmPlugin => "helm-plugin"
  | .tektonTask => "tekton-task"
  | .kedaScaler => "keda-scaler"

/-! ## Environment (external collaborators as oracles) -/

/-- An outbound HTTP request as `deliverWebhookNotification` builds it. -/
structure HttpRequest where
  method : String
  url : String
  body : String
  contentType : String
  secret : String
deriving DecidableEq, Repr

/-- The slice of `http.Response` the worker reads. -/
structure HttpResponse where
  statusCode : Nat
deriving DecidableEq, Repr

/-- External collaborators of one `processNotification` call, the way a
test would mock them. Function-valued fields are the collaborators'
responses; the worker code under verification decides what to do with
them. -/
structure Env where
  /-- `w.baseURL`. -/
  baseURL : String
  /-- Whether `w.svc.ES != nil` (an email sender is configured). -/
  esConfigured : Bool
  /-- `w.svc.NotificationManager.GetPending(ctx, tx)`. -/
  getPending : Except GoErr Notification
  /-- `w.svc.ES.SendEmail(&emailData)`. -/
  sendEmail : EmailData → Option GoErr
  /-- `w.svc.PackageManager.Get(ctx, {PackageID, Version})`. -/
  getPackage : String → String → Except GoErr Package
  /-- `w.svc.RepositoryManager.GetByID(ctx, repositoryID, false)`. -/
  getRepository : String → Except GoErr Repository
  /-- `pkg.BuildURL(baseURL, p, e.PackageVersion)` (handlers package,
  outside the worker source). -/
  buildURL : String → Package → String → String
  /-- `w.httpClient.Do(req)`. -/
  httpDo : HttpRequest → Except GoErr HttpResponse
  /-- `template.New("").Parse(tmplStr)`: `some e` is a parse error. -/
  parseCustomTmpl : String → Option GoErr
  /-- Executing a successfully parsed custom webhook template. -/
  execCustomTmpl : String → PkgNotificationTemplateData → Except GoErr String
  /-- Executing one of the four fixed email body templates
  (`newReleaseEmailTmpl`, `scanningErrorsEmailTmpl`,
  `trackingErrorsEmailTmpl`, `ownershipClaimEmailTmpl`; their text lives
  outside the worker source). -/
  execEmailTmpl : EventKind → EmailTemplateData → Except GoErr String
  /-- Outcome of `w.svc.NotificationManager.UpdateStatus(...)`. -/
  updateStatusResult : Option GoErr

/-! ## Template data preparation -/

/-- The `switch e.EventKind` in `preparePkgNotificationTemplateData`
(only `hub.NewRelease` has a case; anything else leaves the empty
string). -/
def pkgEventKindStr : EventKind → String
  | .newRelease => "package.new-release"
  | _ => ""

/-- The `switch e.EventKind` in `prepareRepoNotificationTemplateData`. -/
def repoEventKindStr : EventKind → String
  | .repositoryScanningErrors => "repository.scanning-errors"
  | .repositoryTrackingErrors => "repository.tracking-errors"
  | .repositoryOwnershipClaim => "repository.ownership-claim"
  | _ => ""

/-- `preparePkgNotificationTemplateData`: fetch the package (cache
first, `"package.%" ++ eventID` key), then build the template data. A
cache hit holding a value of the wrong kind cannot arise through the
namespaced keys (Go would panic on the type assertion); it is treated
as a miss. Returns the result and the cache as left behind. -/
def preparePkgNotificationTemplateData (env : Env) (e : Event) (c : Cache) :
    Except GoErr PkgNotificationTemplateData × Cache :=
  let fetched : Except GoErr (Package × Cache) :=
    match cacheGet c (cacheKeyPackage e.eventID) with
    | some (.pkgVal p) => .ok (p, c)
    | _ =>
      match env.getPackage e.packageID e.packageVersion with
      | .error err => .error err
      | .ok p => .ok (p, cacheSet c (cacheKeyPackage e.eventID) (.pkgVal p))
  match fetched with
  | .error err => (.error err, c)
  | .ok (p, c') =>
    let publisher :=
      if p.repository.organizationName = "" then p.repository.userAlias
      else p.repository.organizationName
    (.ok
      { baseURL := env.baseURL
        eventID := e.eventID
        eventKindStr := pkgEventKindStr e.eventKind
        name := p.name
        version := p.version
        logoImageID := p.logoImageID
        url := env.buildURL env.baseURL p e.packageVersion
        changes := p.changes
        containsSecurityUpdates := p.containsSecurityUpdates
        prerelease := p.prerelease
        repoKind := getKindName p.repository.kind
        repoName := p.repository.name
        publisher := publisher }, c')

/-- `prepareRepoNotificationTemplateData`: fetch the repository (cache
first, `"repository.%" ++ eventID` key), then build the template data. -/
def prepareRepoNotificationTemplateData (env : Env) (e : Event) (c : Cache) :
    Except GoErr RepoNotificationTemplateData × Cache :=
  let fetched : Except GoErr (Repository × Cache) :=
    match cacheGet c (cacheKeyRepository e.eventID) with
    | some (.repoVal r) => .ok (r, c)
    | _ =>
      match env.getRepository e.repositoryID with
      | .error err => .error err
      | .ok r => .ok (r, cacheSet c (cacheKeyRepository e.eventID) (.repoVal r))
  match fetched with
  | .error err => (.error err, c)
  | .ok (r, c') =>
    (.ok
      { baseURL := env.baseURL
        eventID := e.eventID
        eventKindStr := repoEventKindStr e.eventKind
        repoKind := getKindName r.kind
        repoName := r.name
        userAlias := r.userAlias
        organizationName := r.organizationName
        lastScanningErrors := r.lastScanningErrors.splitOn "\n"
        lastTrackingErrors := r.lastTrackingErrors.splitOn "\n" }, c')

/-- `prepareEmailData`: per event kind, prepare the template data, build
the subject with `fmt.Sprintf`, and execute the matching email body
template. Any error on the way out is returned as-is (classification
happens in the caller). The `To` field is left empty here (the caller
sets it). -/
def prepareEmailData (env : Env) (e : Event) (c : Cache) :
    Except GoErr EmailData × Cache :=
  match e.eventKind with
  | .newRelease =>
    match preparePkgNotificationTemplateData env e c with
    | (.error err, c') => (.error err, c')
    | (.ok d, c') =>
      let subject := d.name ++ " version " ++ d.version ++ " released"
      match env.execEmailTmpl .newRelease (.pkgData d) with
      | .error err => (.error err, c')
      | .ok body => (.ok { sendTo := "", subject := subject, body := body }, c')
  | .repositoryScanningErrors =>
    match prepareRepoNotificationTemplateData env e c with
    | (.error err, c') => (.error err, c')
    | (.ok d, c') =>
      let subject := "Something went wrong scanning repository " ++ d.repoName
      match env.execEmailTmpl .repositoryScanningErrors (.repoData d) with
      | .error err => (.error err, c')
      | .ok body => (.ok { sendTo := "", subject := subject, body := body }, c')
  | .repositoryTrackingErrors =>
    match prepareRepoNotificationTemplateData env e c with
    | (.error err, c') => (.error err, c')
    | (.ok d, c') =>
      let subject := "Something went wrong tracking repository " ++ d.repoName
      match env.execEmailTmpl .repositoryTrackingErrors (.repoData d) with
      | .error err => (.error err, c')
      | .ok body => (.ok { sendTo := "", subject := subject, body := body }, c')
  | .repositoryOwnershipClaim =>
    match prepareRepoNotificationTemplateData env e c with
    | (.error err, c') => (.error err, c')
    | (.ok d, c') =>
      let subject := d.repoName ++ " repository ownership has been claimed"
      match env.execEmailTmpl .repositoryOwnershipClaim (.repoData d) with
      | .error err => (.error err, c')
      | .ok body => (.ok { sendTo := "", subject := subject, body := body }, c')

/-! ## Default webhook payload template

`DefaultWebhookPayloadTmpl` is a fixed `text/template`; executing it
against complete template data is a deterministic string concatenation
(Go template execution over present map keys cannot fail), reproduced
here byte for byte, tabs and newlines included. -/

/-- `{{range $i, $e := .Package.changes}}{{if $i}}, {{end}}"{{.}}"{{end}}`
inside `[` and `]`: each change quoted, joined by `", "`. -/
def renderChanges (cs : List String) : String :=
  "[" ++ String.intercalate ", " (cs.map (fun ch => "\"" ++ ch ++ "\"")) ++ "]"

/-- How `text/template` prints a `bool`. -/
def renderBool (b : Bool) : String :=
  if b then "true" else "false"

/-- Executing `DefaultWebhookPayloadTmpl` on the given template data. -/
def renderDefaultWebhookPayload (d : PkgNotificationTemplateData) : String :=
  "\n\x7b\n\t\"specversion\" : \"1.0\",\n\t\"id\" : \"" ++ d.eventID ++
  "\",\n\t\"source\" : \"https://artifacthub.io/cloudevents\",\n\t\"type\" : \"io.artifacthub." ++
  d.eventKindStr ++
  "\",\n\t\"datacontenttype\" : \"application/json\",\n\t\"data\" : \x7b\n\t\t\"package\": \x7b\n\t\t\t\"name\": \"" ++
  d.name ++ "\",\n\t\t\t\"version\": \"" ++ d.version ++
  "\",\n\t\t\t\"url\": \"" ++ d.url ++ "\",\n\t\t\t\"changes\": " ++
  renderChanges d.changes ++ ",\n\t\t\t\"containsSecurityUpdates\": " ++
  renderBool d.containsSecurityUpdates ++ ",\n\t\t\t\"prerelease\": " ++
  renderBool d.prerelease ++ ",\n\t\t\t\"repository\": \x7b\n\t\t\t\t\"kind\": \"" ++
  d.repoKind ++ "\",\n\t\t\t\t\"name\": \"" ++ d.repoName ++
  "\",\n\t\t\t\t\"publisher\": \"" ++ d.publisher ++
  "\"\n\t\t\t\x7d\n\t\t\x7d\n\t\x7d\n\x7d\n"

/-- `DefaultPayloadContentType`. -/
def DefaultPayloadContentType : String := "application/cloudevents+json"

/-! ## Delivery channels -/

/-- `deliverEmailNotification`: look the email data up in the cache
under `"emailData.%" ++ eventID`; on a miss, prepare it — any
preparation error is wrapped retryable as
`fmt.Errorf("%w: error preparing email data: %v", ErrRetryable, err)` —
and store it (before `To` is set, as in the source). Then set `To` from
the notification's user and send. Returns `SendEmail`'s error (if any)
and the cache as left behind. -/
def deliverEmailNotification (env : Env) (n : Notification) (c : Cache) :
    Option GoErr × Cache :=
  let key := cacheKeyEmail n.event.eventID
  let userEmail := (n.user.map (fun u => u.email)).getD ""
  match cacheGet c key with
  | some (.emailVal d0) =>
    (env.sendEmail { d0 with sendTo := userEmail }, c)
  | _ =>
    match prepareEmailData env n.event c with
    | (.error err, c') =>
      (some (.retryableWrap ("error preparing email data: " ++ err.errText)), c')
    | (.ok d0, c') =>
      let c'' := cacheSet c' key (.emailVal d0)
      (env.sendEmail { d0 with sendTo := userEmail }, c'')

/-- The payload block of `deliverWebhookNotification`: a custom
template when `n.Webhook.Template != ""` (its parse error is returned
unwrapped, i.e. terminal, as is an execution error), the default
template otherwise. -/
def webhookPayload (env : Env) (wh : Webhook) (d : PkgNotificationTemplateData) :
    Except GoErr String :=
  if wh.template ≠ "" then
    match env.parseCustomTmpl wh.template with
    | some perr => .error perr
    | none => env.execCustomTmpl wh.template d
  else
    .ok (renderDefaultWebhookPayload d)

/-- The `Content-Type` header value: the webhook's override or the
default. -/
def webhookContentType (wh : Webhook) : String :=
  if wh.contentType = "" then DefaultPayloadContentType else wh.contentType

/-- The POST request `deliverWebhookNotification` builds: method, URL,
rendered payload body, `Content-Type` header and `X-ArtifactHub-Secret`
header. -/
def webhookRequest (wh : Webhook) (payload : String) : HttpRequest :=
  { method := "POST", url := wh.url, body := payload,
    contentType := webhookContentType wh, secret := wh.secret }

/-- `deliverWebhookNotification` (taking the event and the non-nil
webhook target as arguments where Go dereferences `n.Event` and
`n.Webhook`): prepare package template data — any error there is
wrapped retryable as `fmt.Errorf("%w: %v", ErrRetryable, err)` —
render the payload, build the POST request, and call the endpoint: a
transport error is returned unwrapped, and a response status code
`>= 400` yields the unwrapped error
`fmt.Errorf("unexpected status code: %d", resp.StatusCode)`; neither
is tagged retryable. -/
def deliverWebhookNotification (env : Env) (e : Event) (wh : Webhook) (c : Cache) :
    Option GoErr × Cache :=
  match preparePkgNotificationTemplateData env e c with
  | (.error err, c') => (some (.retryableWrap err.errText), c')
  | (.ok d, c') =>
    match webhookPayload env wh d with
    | .error err => (some err, c')
    | .ok payload =>
      match env.httpDo (webhookRequest wh payload) with
      | .error err => (some err, c')
      | .ok resp =>
        if resp.statusCode ≥ 400 then
          (some (.plain ("unexpected status code: " ++ toString resp.statusCode)), c')
        else
          (none, c')

/-! ## Dequeue transaction -/

/-- The persisted state of the claimed notification row that
`UpdateStatus` writes: the processed flag and the recorded error text
(`none` when the delivery error was `nil`). -/
structure NotificationRow where
  processed : Bool
  errorText : Option String
deriving DecidableEq, Repr

/-- The `switch` over the notification's populated target in
`processNotification`: a user target goes to the email channel when a
sender is configured and fails with `email.ErrSenderNotAvailable`
otherwise; a webhook target goes to the webhook channel; with neither
target populated no case runs and the delivery error stays `nil`. -/
def deliverNotification (env : Env) (n : Notification) (c : Cache) :
    Option GoErr × Cache :=
  match n.user with
  | some _ =>
    if env.esConfigured then deliverEmailNotification env n c
    else (some .senderNotAvailable, c)
  | none =>
    match n.webhook with
    | some wh => deliverWebhookNotification env n.event wh c
    | none => (none, c)

/-- What running the body of the `DBTransact` closure produced:
the closure's return error, the row update staged by a successful
`UpdateStatus` call, whether a failed `UpdateStatus` statement left the
transaction failed, whether `UpdateStatus` was called at all, plus the
(non-transactional, in-memory) cache and the log lines emitted. -/
structure TxOutcome where
  retErr : Option GoErr
  staged : Option NotificationRow
  poisoned : Bool
  calledUpdateStatus : Bool
  cache : Cache
  logs : List String
deriving Repr

/-- The closure `processNotification` hands to `util.DBTransact`,
translated statement by statement: get the pending notification
(logging unless the error is `pgx.ErrNoRows`, and returning the error),
deliver it, and: if `errors.Is(err, ErrRetryable)` log and return the
error without touching the row; otherwise call `UpdateStatus(tx, id,
true, err)` — logging if that itself fails — and return `nil`. -/
def processNotificationBody (env : Env) (c : Cache) : TxOutcome :=
  match env.getPending with
  | .error e =>
    { retErr := some e
      staged := none
      poisoned := false
      calledUpdateStatus := false
      cache := c
      logs :=
        if e = .noRows then []
        else ["processNotification: error getting pending notification"] }
  | .ok n =>
    let (derr, c') := deliverNotification env n c
    if (derr.map GoErr.isRetryableErr).getD false then
      { retErr := derr
        staged := none
        poisoned := false
        calledUpdateStatus := false
        cache := c'
        logs := ["processNotification: error delivering notification"] }
    else
      match env.updateStatusResult with
      | some _ =>
        { retErr := none
          staged := none
          poisoned := true
          calledUpdateStatus := true
          cache := c'
          logs := ["processNotification: error updating notification status"] }
      | none =>
        { retErr := none
          staged := some { processed := true, errorText := derr.map GoErr.errText }
          poisoned := false
          calledUpdateStatus := true
          cache := c'
          logs := [] }

/-- Modelled from the spec: `util.DBTransact` (not under the worker
source) runs the closure inside one transaction, rolls back when the
closure returns an error, and commits otherwise; the backing store
aborts the commit of a transaction in which a statement already failed,
so a poisoned transaction persists nothing. Returns the persisted row
state. -/
def dbTransact (row : NotificationRow) (out : TxOutcome) : NotificationRow :=
  if out.retErr.isSome then row
  else if out.poisoned then row
  else out.staged.getD row

/-- `processNotification`: run the transaction body and apply the
transaction semantics. Returns the closure's error (the value `Run`
branches on), the persisted row state, the cache left behind, and the
log lines. -/
def processNotification (env : Env) (row : NotificationRow) (c : Cache) :
    Option GoErr × NotificationRow × Cache × List String :=
  let out := processNotificationBody env c
  (out.retErr, dbTransact row out, out.cache, out.logs)

/-! ## Worker loop -/

/-- `pauseOnEmptyQueue = 30 * time.Second`, in seconds. -/
def pauseOnEmptyQueue : Nat := 30

/-- `pauseOnError = 10 * time.Second`, in seconds. -/
def pauseOnError : Nat := 10

/-- One iteration of `Run` after `processNotification` returned `ret`.
`cancelAt = some t` means the context's cancellation signal fires `t`
seconds after the iteration's pacing branch begins (`some 0`: already
fired); `none` means it never fires during this iteration. Translated
from the `switch` in `Run`: on `nil` a non-blocking `ctx.Done()` check;
on `pgx.ErrNoRows` a `select` between a 30s timer and `ctx.Done()`; on
any other error the same `select` with a 10s timer (when both are ready
at once the timer branch is taken here; the claims only concern
cancellation strictly inside a pause). Returns the seconds spent in the
pacing branch and whether `Run` returns. -/
def runIteration (ret : Option GoErr) (cancelAt : Option Nat) : Nat × Bool :=
  match ret with
  | none =>
    match cancelAt with
    | some 0 => (0, true)
    | _ => (0, false)
  | some e =>
    let d := if e = .noRows then pauseOnEmptyQueue else pauseOnError
    match cancelAt with
    | some t => if t < d then (t, true) else (d, false)
    | none => (d, false)

/-- The whole `Run` loop over a finite trace of iteration inputs
(each `processNotification` result paired with that iteration's
cancellation offset): total seconds spent pausing and whether the loop
returned within the trace. -/
def runLoop : List (Option GoErr × Option Nat) → Nat × Bool
  | [] => (0, false)
  | (ret, cancelAt) :: rest =>
    let (t, stops) := runIteration ret cancelAt
    if stops then (t, true)
    else
      let (t', stops') := runLoop rest
      (t + t', stops')

/-! ## A small JSON checker

To state that a rendered payload is valid JSON, a recursive-descent
parser for a JSON subset (strings without escapes, booleans, null,
arrays, objects) is defined here; a successful parse exhibits the
payload's JSON structure. This is verification machinery, not part of
the Go source. -/

/-- A parsed JSON value. -/
inductive Json where
  | nullVal
  | boolVal (b : Bool)
  | strVal (s : String)
  | arr (xs : List Json)
  | obj (fields : List (String × Json))

/-- JSON insignificant whitespace. -/
def isWs (ch : Char) : Bool :=
  ch = ' ' || ch = '\t' || ch = '\n' || ch = '\r'

/-- Drop leading whitespace. -/
def skipWs : List Char → List Char
  | [] => []
  | ch :: rest => if isWs ch then skipWs rest else ch :: rest

/-- Parse the body of a string literal up to the closing quote
(escape sequences are not accepted). -/
def parseStringChars : List Char → Option (List Char × List Char)
  | [] => none
  | ch :: rest =>
    if ch = '"' then some ([], rest)
    else if ch = '\\' then none
    else (parseStringChars rest).map (fun p => (ch :: p.1, p.2))

/-- Consume an expected literal character sequence. -/
def expectLit : List Char → List Char → Option (List Char)
  | [], rest => some rest
  | _ :: _, [] => none
  | l :: ls, r :: rs => if r = l then expectLit ls rs else none

mutual

/-- Parse one JSON value (input must start at the value). -/
def parseJsonVal : Nat → List Char → Option (Json × List Char)
  | 0, _ => none
  | _ + 1, [] => none
  | fuel + 1, ch :: rest =>
    if ch = '"' then
      (parseStringChars rest).map (fun p => (Json.strVal (String.mk p.1), p.2))
    else if ch = 't' then
      (expectLit ['r', 'u', 'e'] rest).map (fun r => (Json.boolVal true, r))
    else if ch = 'f' then
      (expectLit ['a', 'l', 's', 'e'] rest).map (fun r => (Json.boolVal false, r))
    else if ch = 'n' then
      (expectLit ['u', 'l', 'l'] rest).map (fun r => (Json.nullVal, r))
    else if ch = '[' then
      match skipWs rest with
      | ']' :: r => some (Json.arr [], r)
      | inner => (parseElems fuel inner).map (fun p => (Json.arr p.1, p.2))
    else if ch = '\x7b' then
      match skipWs rest with
      | '\x7d' :: r => some (Json.obj [], r)
      | inner => (parseMembers fuel inner).map (fun p => (Json.obj p.1, p.2))
    else
      none

/-- Parse the elements of a non-empty array, consuming the closing
bracket. -/
def parseElems : Nat → List Char → Option (List Json × List Char)
  | 0, _ => none
  | fuel + 1, input =>
    match parseJsonVal fuel input with
    | none => none
    | some (v, rest) =>
      match skipWs rest with
      | ',' :: r => (parseElems fuel (skipWs r)).map (fun p => (v :: p.1, p.2))
      | ']' :: r => some ([v], r)
      | _ => none

/-- Parse the members of a non-empty object, consuming the closing
brace. -/
def parseMembers : Nat → List Char → Option (List (String × Json) × List Char)
  | 0, _ => none
  | fuel + 1, input =>
    match input with
    | '"' :: rest =>
      match parseStringChars rest with
      | none => none
      | some (key, rest2) =>
        match skipWs rest2 with
        | ':' :: rest3 =>
          match parseJsonVal fuel (skipWs rest3) with
          | none => none
          | some (v, rest4) =>
            match skipWs rest4 with
            | ',' :: r =>
              (parseMembers fuel (skipWs r)).map
                (fun p => ((String.mk key, v) :: p.1, p.2))
            | '\x7d' :: r => some ([(String.mk key, v)], r)
            | _ => none
        | _ => none
    | _ => none

end

/-- Parse a whole string as one JSON document. -/
def parseJson (s : String) : Option Json :=
  match parseJsonVal (s.length + 1) (skipWs s.data) with
  | some (v, rest) => if skipWs rest = [] then some v else none
  | none => none

/-- Field lookup in a JSON object. -/
def Json.getField : Json → String → Option Json
  | .obj fields, k => ((fields.find? (fun p => p.1 == k)).map (fun p => p.2))
  | _, _ => none

/-- Lookup along a path of object fields. -/
def Json.getPath (j : Json) : List String → Option Json
  | [] => some j
  | k :: ks =>
    match j.getField k with
    | some j' => j'.getPath ks
    | none => none

/-! ## Concrete fixtures

A concrete package, event, webhook, user and environment used as test
inputs by the theorems below (playing the role the mocks play in the
Go tests). -/

def etcdRepository : Repository :=
  { kind := .helm
    name := "etcd-repo"
    organizationName := "bitnami"
    userAlias := ""
    lastScanningErrors := ""
    lastTrackingErrors := "" }

def etcdPackage : Package :=
  { name := "etcd"
    version := "3.5.0"
    logoImageID := ""
    changes := []
    containsSecurityUpdates := false
    prerelease := false
    repository := etcdRepository }

def etcdEvent : Event :=
  { eventID := "00000000-0000-0000-0000-000000000001"
    eventKind := .newRelease
    packageID := "pkg-1"
    packageVersion := "3.5.0"
    repositoryID := "" }

def whDefault : Webhook :=
  { url := "https://example.com/hook"
    secret := "s3cret"
    template := ""
    contentType := "" }

def userSample : UserTarget :=
  { email := "user@example.com" }

def notifWebhook : Notification :=
  { notificationID := "n1", event := etcdEvent, user := none, webhook := some whDefault }

def notifEmail : Notification :=
  { notificationID := "n2", event := etcdEvent, user := some userSample, webhook := none }

def notifNoTarget : Notification :=
  { notificationID := "n3", event := etcdEvent, user := none, webhook := none }

/-- A baseline environment: a webhook notification is pending, all
collaborators succeed. -/
def envBase : Env :=
  { baseURL := "https://artifacthub.io"
    esConfigured := true
    getPending := .ok notifWebhook
    sendEmail := fun _ => none
    getPackage := fun _ _ => .ok etcdPackage
    getRepository := fun _ => .ok etcdRepository
    buildURL := fun base p v => base ++ "/packages/helm/" ++ p.name ++ "/" ++ v
    httpDo := fun _ => .ok { statusCode := 200 }
    parseCustomTmpl := fun _ => none
    execCustomTmpl := fun _ _ => .ok ""
    execEmailTmpl := fun _ _ => .ok "rendered email body"
    updateStatusResult := none }

/-- The webhook endpoint answers HTTP 500. -/
def env500 : Env :=
  { envBase with httpDo := fun _ => .ok { statusCode := 500 } }

/-- The webhook endpoint is unreachable at the transport level. -/
def envRefused : Env :=
  { envBase with httpDo := fun _ => .error (.plain "Post \"https://example.com/hook\": connection refused") }

/-- The package lookup fails (the delivery becomes retryable). -/
def envPkgFail : Env :=
  { envBase with getPackage := fun _ _ => .error (.plain "pkg not found") }

/-- An email notification is pending and the email body template fails
to execute. -/
def envTmplFail : Env :=
  { envBase with
      getPending := .ok notifEmail
      execEmailTmpl := fun _ _ => .error (.plain "template: exec error") }

/-- An email notification is pending but no email sender is configured. -/
def envNoSender : Env :=
  { envBase with getPending := .ok notifEmail, esConfigured := false }

/-- A notification with neither target is pending. -/
def envNoTarget : Env :=
  { envBase with getPending := .ok notifNoTarget }

/-- The status update itself fails. -/
def envUpFail : Env :=
  { envBase with updateStatusResult := some (.plain "db connection lost") }

/-- The template data `preparePkgNotificationTemplateData` produces for
`etcdEvent` against `envBase` collaborators. -/
def etcdTmplData : PkgNotificationTemplateData :=
  { baseURL := "https://artifacthub.io"
    eventID := "00000000-0000-0000-0000-000000000001"
    eventKindStr := "package.new-release"
    name := "etcd"
    version := "3.5.0"
    logoImageID := ""
    url := "https://artifacthub.io/packages/helm/etcd/3.5.0"
    changes := []
    containsSecurityUpdates := false
    prerelease := false
    repoKind := "helm"
    repoName := "etcd-repo"
    publisher := "bitnami" }

/-- The JSON document the default webhook payload renders to for
`etcdTmplData`. -/
def etcdJson : Json :=
  Json.obj
    [("specversion", Json.strVal "1.0"),
     ("id", Json.strVal "00000000-0000-0000-0000-000000000001"),
     ("source", Json.strVal "https://artifacthub.io/cloudevents"),
     ("type", Json.strVal "io.artifacthub.package.new-release"),
     ("datacontenttype", Json.strVal "application/json"),
     ("data", Json.obj
       [("package", Json.obj
         [("name", Json.strVal "etcd"),
          ("version", Json.strVal "3.5.0"),
          ("url", Json.strVal "https://artifacthub.io/packages/helm/etcd/3.5.0"),
          ("changes", Json.arr []),
          ("containsSecurityUpdates", Json.boolVal false),
          ("prerelease", Json.boolVal false),
          ("repository", Json.obj
            [("kind", Json.strVal "helm"),
             ("name", Json.strVal "etcd-repo"),
             ("publisher", Json.strVal "bitnami")])])])]

set_option maxRecDepth 100000 in
/-- C5: for the package event of a package named "etcd", version
"3.5.0", zero changes, `containsSecurityUpdates=false` and
`prerelease=false`, the prepared template data rendered with the
default webhook template parses as a JSON document (`etcdJson`), a
structured envelope carrying a specification version, the event id,
the type string `io.artifacthub.package.new-release` (the form
`io.<namespace>.<event-kind>`), the content type marker
`application/json`, and a nested package payload in which
`data.package.changes` is the empty JSON array `[]` and the two
boolean fields are JSON booleans (hence rendered unquoted). -/
theorem c5_default_webhook_payload :
    (preparePkgNotificationTemplateData envBase etcdEvent []).1 = .ok etcdTmplData ∧
    parseJson (renderDefaultWebhookPayload etcdTmplData) = some etcdJson ∧
    etcdJson.getPath ["data", "package", "changes"] = some (Json.arr []) ∧
    etcdJson.getPath ["data", "package", "containsSecurityUpdates"] = some (Json.boolVal false) ∧
    etcdJson.getPath ["data", "package", "prerelease"] = some (Json.boolVal false) ∧
    etcdJson.getField "specversion" = some (Json.strVal "1.0") ∧
    etcdJson.getField "id" = some (Json.strVal etcdEvent.eventID) ∧
    etcdJson.getField "type" =
      some (Json.strVal ("io.artifacthub." ++ pkgEventKindStr etcdEvent.eventKind)) ∧
    etcdJson.getField "datacontenttype" = some (Json.strVal "application/json") ∧
    etcdJson.getPath ["data", "package", "name"] = some (Json.strVal "etcd") ∧
    etcdJson.getPath ["data", "package", "version"] = some (Json.strVal "3.5.0") ∧
    etcdJson.getPath ["data", "package", "repository", "publisher"] =
      some (Json.strVal "bitnami") :=
  ⟨rfl, rfl, rfl, rfl, rfl, rfl, rfl, rfl, rfl, rfl, rfl, rfl⟩

/-! ## Claims about the dequeue transaction -/

/-- C1: for every claimed notification whose delivery attempt returns
an error tagged retryable, `processNotification` aborts the enclosing
transaction without calling `UpdateStatus`: the closure returns the
error (so `DBTransact` rolls back), the persisted row is unchanged —
in particular a row with `processed=false` and no error text stays
that way and remains claimable — and only the delivery failure is
logged. -/
theorem c1_retryable_failure_aborts (env : Env) (n : Notification)
    (row : NotificationRow) (c : Cache) (e : GoErr)
    (hget : env.getPending = .ok n)
    (hdel : (deliverNotification env n c).1 = some e)
    (hr : e.isRetryableErr = true) :
    (processNotificationBody env c).calledUpdateStatus = false ∧
    processNotification env row c =
      (some e, row, (deliverNotification env n c).2,
        ["processNotification: error delivering notification"]) := by
  rcases hdc : deliverNotification env n c with ⟨derr, c2⟩
  rw [hdc] at hdel
  simp only at hdel
  subst hdel
  constructor
  · simp [processNotificationBody, hget, hdc, hr]
  · simp [processNotification, processNotificationBody, dbTransact, hget, hdc, hr]

/-- Witness for C1: with the package lookup failing, the webhook
delivery is wrapped retryable, the row stays `processed=false` with no
error text, and `UpdateStatus` is never called. -/
theorem c1_retryable_failure_aborts_witness :
    (processNotificationBody envPkgFail []).calledUpdateStatus = false ∧
    processNotification envPkgFail { processed := false, errorText := none } [] =
      (some (GoErr.retryableWrap "pkg not found"),
        { processed := false, errorText := none },
        (deliverNotification envPkgFail notifWebhook []).2,
        ["processNotification: error delivering notification"]) :=
  c1_retryable_failure_aborts envPkgFail notifWebhook
    { processed := false, errorText := none } [] (GoErr.retryableWrap "pkg not found")
    rfl rfl rfl

/-- C2: for every claimed notification whose delivery attempt returns
no error or a non-retryable error, `processNotification` calls
`UpdateStatus`, the persisted row becomes `processed=true` with the
error text equal to the failure's rendered message (`none` on
success), and the closure returns `nil` so the transaction commits. -/
theorem c2_terminal_outcome_recorded (env : Env) (n : Notification)
    (row : NotificationRow) (c : Cache) (derr : Option GoErr)
    (hget : env.getPending = .ok n)
    (hdel : (deliverNotification env n c).1 = derr)
    (hnr : (derr.map GoErr.isRetryableErr).getD false = false)
    (hup : env.updateStatusResult = none) :
    (processNotificationBody env c).calledUpdateStatus = true ∧
    processNotification env row c =
      (none, { processed := true, errorText := derr.map GoErr.errText },
        (deliverNotification env n c).2, []) := by
  rcases hdc : deliverNotification env n c with ⟨derr', c2⟩
  rw [hdc] at hdel
  simp only at hdel
  subst hdel
  constructor
  · simp [processNotificationBody, hget, hdc, hnr, hup]
  · simp [processNotification, processNotificationBody, dbTransact, hget, hdc, hnr, hup]

/-- Witness for C2: on an HTTP 500 answer the delivery error is
terminal and the row is committed as `processed=true` with the error
text `"unexpected status code: 500"`. -/
theorem c2_terminal_outcome_recorded_witness :
    (processNotificationBody env500 []).calledUpdateStatus = true ∧
    processNotification env500 { processed := false, errorText := none } [] =
      (none,
        { processed := true, errorText := some "unexpected status code: 500" },
        (deliverNotification env500 notifWebhook []).2, []) :=
  c2_terminal_outcome_recorded env500 notifWebhook
    { processed := false, errorText := none } []
    (some (GoErr.plain "unexpected status code: 500"))
    rfl rfl rfl rfl

/-- C7: for every claimed notification whose status update itself
fails, the failure is logged, the closure still returns `nil`, but the
transaction (poisoned by the failed statement) persists nothing: the
row is unchanged and is found again by the next poll. -/
theorem c7_update_status_failure_rolls_back (env : Env) (n : Notification)
    (row : NotificationRow) (c : Cache) (ue : GoErr)
    (hget : env.getPending = .ok n)
    (hnr : (((deliverNotification env n c).1).map GoErr.isRetryableErr).getD false = false)
    (hup : env.updateStatusResult = some ue) :
    (processNotificationBody env c).calledUpdateStatus = true ∧
    processNotification env row c =
      (none, row, (deliverNotification env n c).2,
        ["processNotification: error updating notification status"]) := by
  rcases hdc : deliverNotification env n c with ⟨derr, c2⟩
  rw [hdc] at hnr
  simp only at hnr
  constructor
  · simp [processNotificationBody, hget, hdc, hnr, hup]
  · simp [processNotification, processNotificationBody, dbTransact, hget, hdc, hnr, hup]

/-- Witness for C7: with `UpdateStatus` failing, the failure is logged
and the row still reads `processed=false` with no error text after the
call. -/
theorem c7_update_status_failure_rolls_back_witness :
    (processNotificationBody envUpFail []).calledUpdateStatus = true ∧
    processNotification envUpFail { processed := false, errorText := none } [] =
      (none, { processed := false, errorText := none },
        (deliverNotification envUpFail notifWebhook []).2,
        ["processNotification: error updating notification status"]) :=
  c7_update_status_failure_rolls_back envUpFail notifWebhook
    { processed := false, errorText := none } [] (GoErr.plain "db connection lost")
    rfl rfl rfl

/-- C9: for every notification targeting a user when no email sender
is configured, the delivery error is `email.ErrSenderNotAvailable`,
which is not tagged retryable, so the row is committed as
`processed=true` with that error recorded rather than being left for
retry. -/
theorem c9_no_sender_terminal (env : Env) (n : Notification)
    (row : NotificationRow) (c : Cache) (u : UserTarget)
    (hget : env.getPending = .ok n)
    (hu : n.user = some u)
    (hes : env.esConfigured = false)
    (hup : env.updateStatusResult = none) :
    deliverNotification env n c = (some GoErr.senderNotAvailable, c) ∧
    GoErr.isRetryableErr GoErr.senderNotAvailable = false ∧
    processNotification env row c =
      (none,
        { processed := true, errorText := some GoErr.senderNotAvailable.errText },
        c, []) := by
  have hdc : deliverNotification env n c = (some GoErr.senderNotAvailable, c) := by
    simp [deliverNotification, hu, hes]
  refine ⟨hdc, rfl, ?_⟩
  simp [processNotification, processNotificationBody, dbTransact, hget, hdc, hup,
    GoErr.isRetryableErr]

/-- Witness for C9: with no sender configured the pending email
notification is committed as processed with the sender-not-available
error text. -/
theorem c9_no_sender_terminal_witness :
    deliverNotification envNoSender notifEmail [] = (some GoErr.senderNotAvailable, []) ∧
    GoErr.isRetryableErr GoErr.senderNotAvailable = false ∧
    processNotification envNoSender { processed := false, errorText := none } [] =
      (none,
        { processed := true, errorText := some GoErr.senderNotAvailable.errText },
        [], []) :=
  c9_no_sender_terminal envNoSender notifEmail
    { processed := false, errorText := none } [] userSample rfl rfl rfl rfl

/-- C10: for every claimed notification with neither a user nor a
webhook target, no delivery channel runs, the delivery error stays
`nil`, and the row is committed as `processed=true` with no error
text — the same persisted outcome as a successful delivery. -/
theorem c10_no_target_marked_processed (env : Env) (n : Notification)
    (row : NotificationRow) (c : Cache)
    (hget : env.getPending = .ok n)
    (hu : n.user = none) (hw : n.webhook = none)
    (hup : env.updateStatusResult = none) :
    deliverNotification env n c = (none, c) ∧
    processNotification env row c =
      (none, { processed := true, errorText := none }, c, []) := by
  have hdc : deliverNotification env n c = (none, c) := by
    simp [deliverNotification, hu, hw]
  refine ⟨hdc, ?_⟩
  simp [processNotification, processNotificationBody, dbTransact, hget, hdc, hup]

/-- Witness for C10: a notification with neither target is committed
as processed with no error recorded. -/
theorem c10_no_target_marked_processed_witness :
    deliverNotification envNoTarget notifNoTarget [] = (none, []) ∧
    processNotification envNoTarget { processed := false, errorText := none } [] =
      (none, { processed := true, errorText := none }, [], []) :=
  c10_no_target_marked_processed envNoTarget notifNoTarget
    { processed := false, errorText := none } [] rfl rfl rfl rfl

/-! ## Claims about the worker loop -/

/-- C6: per iteration of `Run`: a "no pending notification" result
(`pgx.ErrNoRows`) pauses the full 30s `pauseOnEmptyQueue` and loops;
any other error that is not tagged retryable pauses the full 10s
`pauseOnError` and loops; a `nil` result loops immediately with no
delay; and when the cancellation signal fires strictly inside either
pause (after `t1 < 30` resp. `t2 < 10` seconds) `Run` returns at that
moment instead of waiting out the pause — and also returns at once
when a `nil` iteration finds the signal already fired. -/
theorem c6_run_pacing (e : GoErr) (t1 t2 : Nat)
    (he : e ≠ GoErr.noRows) (_hr : e.isRetryableErr = false)
    (h1 : t1 < pauseOnEmptyQueue) (h2 : t2 < pauseOnError) :
    runIteration (some GoErr.noRows) none = (pauseOnEmptyQueue, false) ∧
    runIteration (some e) none = (pauseOnError, false) ∧
    runIteration none none = (0, false) ∧
    runIteration (some GoErr.noRows) (some t1) = (t1, true) ∧
    runIteration (some e) (some t2) = (t2, true) ∧
    runIteration none (some 0) = (0, true) := by
  refine ⟨rfl, ?_, rfl, ?_, ?_, rfl⟩
  · simp [runIteration, he]
  · simp [runIteration, h1]
  · simp [runIteration, he, h2]

/-- Witness for C6 at a concrete non-retryable error and concrete
cancellation offsets inside each pause. -/
theorem c6_run_pacing_witness :
    runIteration (some GoErr.noRows) none = (pauseOnEmptyQueue, false) ∧
    runIteration (some (GoErr.plain "boom")) none = (pauseOnError, false) ∧
    runIteration none none = (0, false) ∧
    runIteration (some GoErr.noRows) (some 7) = (7, true) ∧
    runIteration (some (GoErr.plain "boom")) (some 5) = (5, true) ∧
    runIteration none (some 0) = (0, true) :=
  c6_run_pacing (GoErr.plain "boom") 7 5 (by decide) (by decide) (by decide) (by decide)

/-! ## Claims about webhook delivery failure classification -/

/-- C3 counterexample: on an HTTP 500 answer (and likewise on a
transport-level connection refusal) the webhook delivery error is NOT
tagged retryable, and the notification IS marked `processed=true` with
the error text recorded — refuting the claim that both cases are
classified retryable and leave the row unprocessed. The two cases do
yield distinct error texts. -/
theorem c3_counterexample :
    (deliverWebhookNotification env500 etcdEvent whDefault []).1 =
      some (GoErr.plain "unexpected status code: 500") ∧
    (deliverWebhookNotification envRefused etcdEvent whDefault []).1 =
      some (GoErr.plain "Post \"https://example.com/hook\": connection refused") ∧
    GoErr.isRetryableErr (GoErr.plain "unexpected status code: 500") = false ∧
    GoErr.isRetryableErr
      (GoErr.plain "Post \"https://example.com/hook\": connection refused") = false ∧
    "unexpected status code: 500" ≠
      "Post \"https://example.com/hook\": connection refused" ∧
    (processNotification env500 { processed := false, errorText := none } []).2.1 =
      { processed := true, errorText := some "unexpected status code: 500" } :=
  ⟨rfl, rfl, rfl, rfl, by decide, rfl⟩

/-- C3 as amended: for every webhook notification (default template)
whose HTTP POST fails at the transport level or receives a status code
`>= 400`, the delivery error is classified terminal, NOT retryable: the
transport error is returned unwrapped and the status case yields the
distinct text `"unexpected status code: <code>"`, and in both cases the
notification IS marked `processed=true` with the error text recorded. -/
theorem c3_amended (env : Env) (n : Notification) (row : NotificationRow)
    (c c' : Cache) (wh : Webhook) (d : PkgNotificationTemplateData)
    (terr : GoErr) (code : Nat)
    (hget : env.getPending = .ok n)
    (hu : n.user = none) (hw : n.webhook = some wh)
    (htmpl : wh.template = "")
    (hprep : preparePkgNotificationTemplateData env n.event c = (.ok d, c'))
    (hterr : terr.isRetryableErr = false)
    (hcode : 400 ≤ code)
    (hup : env.updateStatusResult = none) :
    (env.httpDo (webhookRequest wh (renderDefaultWebhookPayload d)) = .error terr →
      deliverWebhookNotification env n.event wh c = (some terr, c') ∧
      processNotification env row c =
        (none, { processed := true, errorText := some terr.errText }, c', [])) ∧
    (env.httpDo (webhookRequest wh (renderDefaultWebhookPayload d)) =
        .ok { statusCode := code } →
      deliverWebhookNotification env n.event wh c =
        (some (GoErr.plain ("unexpected status code: " ++ toString code)), c') ∧
      processNotification env row c =
        (none,
          { processed := true,
            errorText := some ("unexpected status code: " ++ toString code) },
          c', [])) := by
  have hpay : webhookPayload env wh d = .ok (renderDefaultWebhookPayload d) := by
    simp [webhookPayload, htmpl]
  constructor
  · intro hdo
    have hdw : deliverWebhookNotification env n.event wh c = (some terr, c') := by
      simp [deliverWebhookNotification, hprep, hpay, hdo]
    refine ⟨hdw, ?_⟩
    have hdn : deliverNotification env n c = (some terr, c') := by
      simp [deliverNotification, hu, hw, hdw]
    simp [processNotification, processNotificationBody, dbTransact, hget, hdn, hterr, hup]
  · intro hdo
    have hdw : deliverWebhookNotification env n.event wh c =
        (some (GoErr.plain ("unexpected status code: " ++ toString code)), c') := by
      simp [deliverWebhookNotification, hprep, hpay, hdo, hcode]
    refine ⟨hdw, ?_⟩
    have hdn : deliverNotification env n c =
        (some (GoErr.plain ("unexpected status code: " ++ toString code)), c') := by
      simp [deliverNotification, hu, hw, hdw]
    simp [processNotification, processNotificationBody, dbTransact, hget, hdn, hup,
      GoErr.isRetryableErr, GoErr.errText]

/-- Witness for the amended C3: the connection-refused transport error
and the HTTP 500 status error, each ending in a committed
`processed=true` row with its own error text. -/
theorem c3_amended_witness :
    deliverWebhookNotification envRefused etcdEvent whDefault [] =
      (some (GoErr.plain "Post \"https://example.com/hook\": connection refused"),
        [(cacheKeyPackage etcdEvent.eventID, CacheVal.pkgVal etcdPackage)]) ∧
    processNotification env500 { processed := false, errorText := none } [] =
      (none,
        { processed := true, errorText := some ("unexpected status code: " ++ toString 500) },
        [(cacheKeyPackage etcdEvent.eventID, CacheVal.pkgVal etcdPackage)], []) := by
  have h1 := (c3_amended envRefused notifWebhook { processed := false, errorText := none }
    [] [(cacheKeyPackage etcdEvent.eventID, CacheVal.pkgVal etcdPackage)]
    whDefault etcdTmplData
    (GoErr.plain "Post \"https://example.com/hook\": connection refused") 500
    rfl rfl rfl rfl rfl rfl (by decide) rfl).1 rfl
  have h2 := (c3_amended env500 notifWebhook { processed := false, errorText := none }
    [] [(cacheKeyPackage etcdEvent.eventID, CacheVal.pkgVal etcdPackage)]
    whDefault etcdTmplData (GoErr.plain "unused") 500
    rfl rfl rfl rfl rfl rfl (by decide) rfl).2 rfl
  exact ⟨h1.1, h2.2⟩

/-! ## Claims about email delivery failure classification -/

/-- C4 counterexample: when executing the email body template fails,
`deliverEmailNotification` wraps the error RETRYABLE (via the blanket
wrap on any `prepareEmailData` error), so the notification is NOT
marked processed and `UpdateStatus` is never called — refuting the
claim that template execution errors are terminal and recorded. -/
theorem c4_counterexample :
    (deliverEmailNotification envTmplFail notifEmail []).1 =
      some (GoErr.retryableWrap "error preparing email data: template: exec error") ∧
    GoErr.isRetryableErr
      (GoErr.retryableWrap "error preparing email data: template: exec error") = true ∧
    (processNotificationBody envTmplFail []).calledUpdateStatus = false ∧
    (processNotification envTmplFail { processed := false, errorText := none } []).2.1 =
      { processed := false, errorText := none } :=
  ⟨rfl, rfl, rfl, rfl⟩

/-- C4 as amended: for every email notification, an error raised while
executing the event-kind-keyed email body template propagates out of
`prepareEmailData` and is wrapped RETRYABLE by
`deliverEmailNotification` (text
`"retryable error: error preparing email data: <err>"`), so the
notification is NOT marked processed: `UpdateStatus` is not called,
the transaction aborts, the row is unchanged and the delivery will be
retried. (Stated for the new-release kind, whose body template is
`newReleaseEmailTmpl`.) -/
theorem c4_amended (env : Env) (n : Notification) (row : NotificationRow)
    (c c' : Cache) (d : PkgNotificationTemplateData) (terr : GoErr)
    (hk : n.event.eventKind = .newRelease)
    (hprep : preparePkgNotificationTemplateData env n.event c = (.ok d, c'))
    (hexec : env.execEmailTmpl .newRelease (.pkgData d) = .error terr)
    (hmiss : cacheGet c (cacheKeyEmail n.event.eventID) = none)
    (hget : env.getPending = .ok n)
    (hu : n.user.isSome = true)
    (hes : env.esConfigured = true) :
    prepareEmailData env n.event c = (.error terr, c') ∧
    (deliverEmailNotification env n c).1 =
      some (GoErr.retryableWrap ("error preparing email data: " ++ terr.errText)) ∧
    (processNotificationBody env c).calledUpdateStatus = false ∧
    processNotification env row c =
      (some (GoErr.retryableWrap ("error preparing email data: " ++ terr.errText)),
        row, c', ["processNotification: error delivering notification"]) := by
  have h1 : prepareEmailData env n.event c = (.error terr, c') := by
    simp [prepareEmailData, hk, hprep, hexec]
  have h2 : deliverEmailNotification env n c =
      (some (GoErr.retryableWrap ("error preparing email data: " ++ terr.errText)), c') := by
    simp [deliverEmailNotification, hmiss, h1]
  obtain ⟨u, hu'⟩ := Option.isSome_iff_exists.mp hu
  have hdn : deliverNotification env n c =
      (some (GoErr.retryableWrap ("error preparing email data: " ++ terr.errText)), c') := by
    simp [deliverNotification, hu', hes, h2]
  refine ⟨h1, by rw [h2], ?_, ?_⟩
  · simp [processNotificationBody, hget, hdn, GoErr.isRetryableErr]
  · simp [processNotification, processNotificationBody, dbTransact, hget, hdn,
      GoErr.isRetryableErr]

/-- Witness for the amended C4 at the concrete failing-template
environment. -/
theorem c4_amended_witness :
    prepareEmailData envTmplFail etcdEvent [] =
      (.error (GoErr.plain "template: exec error"),
        [(cacheKeyPackage etcdEvent.eventID, CacheVal.pkgVal etcdPackage)]) ∧
    (deliverEmailNotification envTmplFail notifEmail []).1 =
      some (GoErr.retryableWrap "error preparing email data: template: exec error") ∧
    (processNotificationBody envTmplFail []).calledUpdateStatus = false ∧
    processNotification envTmplFail { processed := false, errorText := none } [] =
      (some (GoErr.retryableWrap "error preparing email data: template: exec error"),
        { processed := false, errorText := none },
        [(cacheKeyPackage etcdEvent.eventID, CacheVal.pkgVal etcdPackage)],
        ["processNotification: error delivering notification"]) :=
  c4_amended envTmplFail notifEmail { processed := false, errorText := none }
    [] [(cacheKeyPackage etcdEvent.eventID, CacheVal.pkgVal etcdPackage)]
    etcdTmplData (GoErr.plain "template: exec error")
    rfl rfl rfl rfl rfl rfl rfl

/-! ## Claims about cache keys -/

/-- Appending to a common prefix is injective on strings. -/
theorem str_append_left_cancel (p a b : String) (h : p ++ a = p ++ b) : a = b := by
  apply String.ext
  have h2 := congrArg String.data h
  rw [String.data_append, String.data_append] at h2
  exact List.append_cancel_left h2

/-- Strings starting with distinct characters stay distinct under any
appends. -/
theorem str_append_head_ne (p q a b : String) (cp cq : Char) (lp lq : List Char)
    (hp : p.data = cp :: lp) (hq : q.data = cq :: lq) (hne : cp ≠ cq) :
    p ++ a ≠ q ++ b := by
  intro h
  have h2 := congrArg String.data h
  rw [String.data_append, String.data_append, hp, hq] at h2
  simp only [List.cons_append, List.cons.injEq] at h2
  exact hne h2.1

/-- C8 counterexample: the cache keys are NOT the namespaces
`emailData.`, `package.`, `repository.` concatenated directly with the
event id — the code inserts a literal `%` between the namespace and
the id. -/
theorem c8_counterexample :
    cacheKeyEmail "e1" ≠ "emailData." ++ "e1" ∧
    cacheKeyPackage "e1" ≠ "package." ++ "e1" ∧
    cacheKeyRepository "e1" ≠ "repository." ++ "e1" := by
  refine ⟨by decide, by decide, by decide⟩

/-- C8 as amended: the payload cache keys are the data-kind namespaces
`emailData.`, `package.`, `repository.` each followed by a literal `%`
and then the event id; for any single event id the three keys are
pairwise distinct, and within each namespace keys for distinct event
ids never collide (nor do keys across namespaces, whatever the ids). -/
theorem c8_amended (a b : String) :
    cacheKeyEmail a = "emailData.%" ++ a ∧
    cacheKeyPackage a = "package.%" ++ a ∧
    cacheKeyRepository a = "repository.%" ++ a ∧
    cacheKeyEmail a ≠ cacheKeyPackage b ∧
    cacheKeyEmail a ≠ cacheKeyRepository b ∧
    cacheKeyPackage a ≠ cacheKeyRepository b ∧
    (cacheKeyEmail a = cacheKeyEmail b → a = b) ∧
    (cacheKeyPackage a = cacheKeyPackage b → a = b) ∧
    (cacheKeyRepository a = cacheKeyRepository b → a = b) := by
  refine ⟨rfl, rfl, rfl, ?_, ?_, ?_, ?_, ?_, ?_⟩
  · exact str_append_head_ne "emailData.%" "package.%" a b 'e' 'p' _ _ rfl rfl (by decide)
  · exact str_append_head_ne "emailData.%" "repository.%" a b 'e' 'r' _ _ rfl rfl (by decide)
  · exact str_append_head_ne "package.%" "repository.%" a b 'p' 'r' _ _ rfl rfl (by decide)
  · exact fun h => str_append_left_cancel "emailData.%" a b h
  · exact fun h => str_append_left_cancel "package.%" a b h
  · exact fun h => str_append_left_cancel "repository.%" a b h

/-- Witness for the amended C8 at concrete event ids. -/
theorem c8_amended_witness :
    cacheKeyEmail "e1" = "emailData.%" ++ "e1" ∧
    cacheKeyPackage "e1" = "package.%" ++ "e1" ∧
    cacheKeyRepository "e1" = "repository.%" ++ "e1" ∧
    cacheKeyEmail "e1" ≠ cacheKeyPackage "e2" ∧
    cacheKeyEmail "e1" ≠ cacheKeyRepository "e2" ∧
    cacheKeyPackage "e1" ≠ cacheKeyRepository "e2" ∧
    (cacheKeyEmail "e1" = cacheKeyEmail "e2" → "e1" = "e2") ∧
    (cacheKeyPackage "e1" = cacheKeyPackage "e2" → "e1" = "e2") ∧
    (cacheKeyRepository "e1" = cacheKeyRepository "e2" → "e1" = "e2") :=
  c8_amended "e1" "e2"

end HubNotif
